import Mathlib

/-!
Shallow embedding of the `BatchedSummarizationChain` core
(`nodes/BatchedChainSummarization/batchedSummarizationChain.ts`) together with
the clamping constants of `nodes/BatchedChainSummarization/constants.ts`.

Modelling conventions:
* JavaScript strings are Lean `String`s; `String.length` stands in for the
  JS `.length` (UTF-16 code units vs. Unicode scalar values differ only on
  astral-plane characters, which none of the verified properties depend on).
* The language model handle is a deterministic oracle `Nat → String → String`
  mapping the index of the invocation (0-based, counted across one run) and
  the prompt text to the response text; `withConfig` may rebind the handle.
* The tokenizer of `js-tiktoken` (including its `ceil(length/4)` fallback) is
  an abstract function `tok : String → Nat` in the environment.
* The tool-calling agent executor built by `createToolCallingAgent` /
  `AgentExecutor` is external library machinery; its observable behaviour is
  an abstract function `agent : String → Except String String` in the
  environment (an `Except.error` stands for a thrown error, covering both a
  failing construction and a failing run; both propagate to the same catch
  in the strategies).
* Effects are traced explicitly: a run threads a state `St` holding the
  number of model invocations so far and the chronological list of events
  (model calls, agent calls, sleeps).  `await sleep(ms)` records an event.
* Within one batch the source fires the per-item generations concurrently
  and waits for all (`Promise.all`); the trace records them in item order,
  which is also the order the results are collected in.
* JS truthiness of the optional numeric `outputSize` (`!this.outputSize`) is
  `truthy : Option Int → Bool`, false for `none` and for `some 0`.
* Thrown JS errors are `Except.error` values carrying the message.
-/

namespace BatchedSummarization


/-- One measurement unit for output size (`SizeMeasurement` in the source). -/
inductive SizeMeasurement where
  | characters
  | tokens
deriving DecidableEq, Repr

/-- A LangChain document as the chain consumes it: only `pageContent` is read;
`metadata` is carried around untouched. -/
structure Document where
  pageContent : String
  metadata : List (String × String) := []
deriving DecidableEq, Repr

/-- The language-model handle.  `oracle` models `model.invoke` (response as a
function of the 0-based invocation index and the prompt).  A `configurable`
model additionally exposes a `withConfig` method returning a rebound handle
for an opaque config blob; a `plain` model has no such method (the source
checks `typeof this.model.withConfig === 'function'`). -/
inductive LModel where
  | plain (oracle : Nat → String → String)
  | configurable (oracle : Nat → String → String) (reconfig : String → LModel)

/-- The response function of a model handle. -/
def LModel.oracle : LModel → Nat → String → String
  | .plain o => o
  | .configurable o _ => o

/-- The optional `withConfig` method of a model handle. -/
def LModel.reconfig : LModel → Option (String → LModel)
  | .plain _ => none
  | .configurable _ r => some r

/-- Values substituted into a prompt template by `format`; templates that only
use `{text}` ignore `existing_answer`. -/
structure PromptVals where
  text : String
  existing_answer : String := ""

/-- A `BasePromptTemplate` is modelled extensionally by its `format` function. -/
abbrev BasePromptTemplate := PromptVals → String

/-- External capabilities: the tokenizer and the agent-executor behaviour. -/
structure Env where
  tok : String → Nat
  agent : String → Except String String

/-- Constants of `constants.ts`. -/
def DEFAULT_BATCH_SIZE : Int := 5

/-- `DEFAULT_DELAY_BETWEEN_BATCHES` of `constants.ts`. -/
def DEFAULT_DELAY_BETWEEN_BATCHES : Int := 0

/-- `MIN_BATCH_SIZE` of `constants.ts`. -/
def MIN_BATCH_SIZE : Int := 1

/-- `MIN_DELAY` of `constants.ts`. -/
def MIN_DELAY : Int := 0

/-- `MAX_BATCH_SIZE` of `constants.ts`. -/
def MAX_BATCH_SIZE : Int := 1000

/-- `MAX_DELAY` of `constants.ts` (10 minutes). -/
def MAX_DELAY : Int := 600000

/-- `Math.max(MIN_BATCH_SIZE, Math.min(MAX_BATCH_SIZE, Math.floor(raw)))`;
the raw configured value is an integer here, so `Math.floor` is the identity. -/
def clampBatchSize (raw : Int) : Nat := (max MIN_BATCH_SIZE (min MAX_BATCH_SIZE raw)).toNat

/-- `Math.max(MIN_DELAY, Math.min(MAX_DELAY, Math.floor(raw)))`. -/
def clampDelay (raw : Int) : Nat := (max MIN_DELAY (min MAX_DELAY raw)).toNat

/-- The constructed strategy (the private fields of `BatchedSummarizationChain`).
`type` is a plain string because the runtime value is an arbitrary string
(the TS union type is erased); `batchSize_pos` records the invariant the
constructor establishes by clamping, which the batching loops rely on for
termination (with `batchSize = 0` the source loops `i += this.batchSize`
would never advance). -/
structure Chain where
  model : LModel
  type : String
  batchSize : Nat
  batchSize_pos : 0 < batchSize
  delayBetweenBatches : Nat
  outputSize : Option Int := none
  sizeMeasurement : SizeMeasurement := .characters
  useAgent : Bool := false
  combineMapPrompt : Option BasePromptTemplate := none
  combinePrompt : Option BasePromptTemplate := none
  prompt : Option BasePromptTemplate := none
  refinePrompt : Option BasePromptTemplate := none
  questionPrompt : Option BasePromptTemplate := none

/-- The constructor parameters (`BatchedSummarizationChainParams`); optional
numeric fields are `Option Int` (a JS `number | undefined`). -/
structure ChainParams where
  model : LModel
  type : String
  batchSize : Option Int := none
  delayBetweenBatches : Option Int := none
  outputSize : Option Int := none
  sizeMeasurement : Option SizeMeasurement := none
  useAgent : Option Bool := none
  combineMapPrompt : Option BasePromptTemplate := none
  combinePrompt : Option BasePromptTemplate := none
  prompt : Option BasePromptTemplate := none
  refinePrompt : Option BasePromptTemplate := none
  questionPrompt : Option BasePromptTemplate := none

/-- The constructor of `BatchedSummarizationChain`: clamps `batchSize` and
`delayBetweenBatches` once, applies the `??` defaults, stores everything else
verbatim (in particular `outputSize` is NOT clamped). -/
def mkChain (params : ChainParams) : Chain :=
  { model := params.model
    type := params.type
    batchSize := clampBatchSize (params.batchSize.getD DEFAULT_BATCH_SIZE)
    batchSize_pos := by unfold clampBatchSize MIN_BATCH_SIZE MAX_BATCH_SIZE; omega
    delayBetweenBatches := clampDelay (params.delayBetweenBatches.getD DEFAULT_DELAY_BETWEEN_BATCHES)
    outputSize := params.outputSize
    sizeMeasurement := params.sizeMeasurement.getD .characters
    useAgent := params.useAgent.getD false
    combineMapPrompt := params.combineMapPrompt
    combinePrompt := params.combinePrompt
    prompt := params.prompt
    refinePrompt := params.refinePrompt
    questionPrompt := params.questionPrompt }

/-- JS truthiness of the optional numeric `outputSize`: `undefined` and `0`
are falsy, every other number is truthy. -/
def truthy : Option Int → Bool
  | none => false
  | some n => n != 0

/-- One observable effect of a run. -/
inductive Event where
  | modelCall (prompt response : String)
  | agentCall (input : String)
  | sleepCall (ms : Nat)
deriving DecidableEq, Repr

/-- The execution state threaded through a run: how many model invocations
happened so far (this indexes the oracle) and the chronological event list. -/
structure St where
  calls : Nat
  events : List Event
deriving DecidableEq, Repr

/-- `await this.model.invoke(prompt)` followed by the string/`.content`
normalisation (the oracle already yields the normalised string). -/
def modelInvoke (m : LModel) (st : St) (prompt : String) : String × St :=
  let response := m.oracle st.calls prompt
  (response, ⟨st.calls + 1, st.events ++ [Event.modelCall prompt response]⟩)

/-- `await sleep(this.delayBetweenBatches)`. -/
def pushSleep (st : St) (ms : Nat) : St :=
  { st with events := st.events ++ [Event.sleepCall ms] }

/-- The string form of the measurement unit (both the `unit` field and the
`sizeUnit` ternary in the source produce exactly these strings). -/
def measurementStr : SizeMeasurement → String
  | .characters => "characters"
  | .tokens => "tokens"

/-- `measureTextSize`: character count, or the tokenizer (whose internal
try/catch fallback is part of the abstract `env.tok`). -/
def measureTextSize (env : Env) (c : Chain) (text : String) : Nat :=
  match c.sizeMeasurement with
  | .tokens => env.tok text
  | .characters => text.length

/-- How JS interpolates the optional limit into template strings
(`${this.outputSize}` prints `undefined` when the field is absent). -/
def showLimit : Option Int → String
  | none => "undefined"
  | some n => toString n

/-- `createSizeConstrainedPrompt`: returns the base template untouched when
the limit is falsy, otherwise wraps it in the verbatim guideline block. -/
def createSizeConstrainedPrompt (c : Chain) (baseTemplate : String) : String :=
  if truthy c.outputSize = false then baseTemplate
  else
    let o := showLimit c.outputSize
    let u := measurementStr c.sizeMeasurement
    "CRITICAL SIZE LIMIT: Your response MUST NOT exceed " ++ o ++ " " ++ u ++
    ".\n\nSIZE REQUIREMENTS:\n- Maximum allowed: " ++ o ++ " " ++ u ++
    " (STRICT LIMIT)\n- This limit will be automatically validated after generation\n- Responses exceeding the limit will trigger retry with stricter constraints\n- Prioritize staying within bounds over including additional details\n\nWRITING STRATEGY:\n- Plan your response to fit within " ++
    o ++ " " ++ u ++
    "\n- Use concise, direct language\n- Focus on the most essential information first\n- If necessary, use bullet points, abbreviations, or shorter sentences\n- End responses naturally, even if under the limit\n\nQUALITY EXPECTATIONS:\n- Maintain coherence and clarity within the size constraints\n- Avoid unnecessary words or redundant phrases\n- Use precise, impactful language\n\n---\n\nTASK:\n" ++
    baseTemplate ++
    "\n\n---\n\nSTRICT REMINDER: Keep your response ≤ " ++ o ++ " " ++ u ++
    ". Exceeding this limit will require automatic retry."

/-- The record built by `validateOutputSize` (no `retryCount` yet — that is
attached by the strategies when they assemble the final output). -/
structure SizeValidation where
  isValid : Bool
  actualSize : Nat
  maxSize : Option Int := none
  unit : String
  warning : Option String := none
deriving DecidableEq, Repr

/-- `validateOutputSize`: with a falsy limit (`undefined` or `0`) every text
is valid and neither `maxSize` nor `warning` is populated; otherwise the
measured size is compared against the limit and a warning is attached when
it is exceeded.  (In the truthy branch `outputSize` is `some limit` with
`limit ≠ 0`, so the `getD` default is never used.) -/
def validateOutputSize (env : Env) (c : Chain) (text : String) : SizeValidation :=
  if truthy c.outputSize = false then
    { isValid := true
      actualSize := measureTextSize env c text
      unit := measurementStr c.sizeMeasurement }
  else
    let limit := c.outputSize.getD 0
    let actualSize := measureTextSize env c text
    let isValid : Bool := decide ((actualSize : Int) ≤ limit)
    let unit := measurementStr c.sizeMeasurement
    if isValid = true then
      { isValid := isValid, actualSize := actualSize, maxSize := some limit, unit := unit }
    else
      { isValid := isValid, actualSize := actualSize, maxSize := some limit, unit := unit
        warning := some ("Output size (" ++ toString actualSize ++ " " ++ unit ++
          ") exceeds limit (" ++ toString limit ++ " " ++ unit ++
          "). Consider increasing the limit or using shorter prompts.") }

/-- The three escalating `strictPrompts` templates of `retryWithShorterPrompt`,
already composed with the `{text}` substitution that `retryPrompt.format`
performs (the wrapper text contains no placeholder, so wrapping and
substitution commute).  `idx` is the list index the source selects via
`Math.min(attempt - 1, strictPrompts.length - 1)`; `maxAttempts = 3` is
interpolated into the second and third templates. -/
def strictPromptTemplate (c : Chain) (attempt : Nat) (idx : Nat) (text : String) : String :=
  let o := showLimit c.outputSize
  let u := measurementStr c.sizeMeasurement
  match idx with
  | 0 =>
    "SIZE VIOLATION - RETRY ATTEMPT " ++ toString attempt ++
    "\n\nALERT: Previous response exceeded " ++ o ++ " " ++ u ++
    " limit. Your response was automatically rejected.\n\nSTRICTER REQUIREMENTS:\n- Maximum: " ++
    o ++ " " ++ u ++
    " (ABSOLUTE LIMIT)\n- Be extremely concise and direct\n- Eliminate all unnecessary words\n- Use shorter sentences and phrases\n- Focus only on core information\n\nTASK: Summarize the following text within the strict size limit:\n\n" ++
    text ++ "\n\nCONCISE SUMMARY (≤" ++ o ++ " " ++ u ++ "):"
  | 1 =>
    "FINAL WARNING - RETRY ATTEMPT " ++ toString attempt ++
    "\n\nSIZE LIMIT STILL EXCEEDED. This is attempt " ++ toString attempt ++
    "/3.\n\nEMERGENCY CONSTRAINTS:\n- " ++ o ++ " " ++ u ++
    " MAXIMUM (NO EXCEPTIONS)\n- Use bullet points or fragments if needed\n- Abbreviate words where possible\n- Remove all filler words (the, and, etc.)\n- Use telegraphic style if necessary\n\nTEXT TO SUMMARIZE:\n" ++
    text ++ "\n\nULTRA-BRIEF SUMMARY (≤" ++ o ++ " " ++ u ++ "):"
  | _ =>
    "LAST CHANCE - ATTEMPT " ++ toString attempt ++
    "/3\n\nCRITICAL SIZE ENFORCEMENT - FINAL ATTEMPT\n\nEXTREME CONSTRAINTS:\n- Absolute maximum: " ++
    o ++ " " ++ u ++
    "\n- Use only essential keywords\n- Single words or short phrases only\n- No complete sentences if necessary\n- Telegraphic/note-taking style acceptable\n\nINPUT: " ++
    text ++ "\n\nKEYWORDS ONLY (≤" ++ o ++ " " ++ u ++ "):"

/-- `retryWithShorterPrompt`: regenerate with the escalating template selected
at index `min(attempt - 1, 2)`, re-validate, stop when valid or when
`attempt >= maxAttempts` (`maxAttempts = 3`), else recurse with `attempt + 1`.
The `promptTemplate` parameter is declared (and threaded through the
recursion) but never read, exactly as in the source. -/
def retryWithShorterPrompt (env : Env) (c : Chain) (text : String)
    (promptTemplate : BasePromptTemplate) (attempt : Nat) (st : St) : String × St :=
  let formattedPrompt := strictPromptTemplate c attempt (min (attempt - 1) 2) text
  let gen := modelInvoke c.model st formattedPrompt
  let validation := validateOutputSize env c gen.1
  if validation.isValid = true ∨ 3 ≤ attempt then
    gen
  else
    retryWithShorterPrompt env c text promptTemplate (attempt + 1) gen.2
termination_by 3 - attempt
decreasing_by simp only [not_or] at *; omega

/-- `getDefaultPrompt`.  The source base template is the single-quoted
literal containing the escaped sequences backslash-n-backslash-n (four
characters, NOT blank lines); `format` substitutes the `{text}` placeholder,
modelled by direct splicing (the size-constraint wrapper contains no
placeholder, so wrapping and substitution commute). -/
def getDefaultPrompt (c : Chain) : BasePromptTemplate :=
  fun v => createSizeConstrainedPrompt c
    ("Write a concise summary of the following:\\n\\n" ++ v.text ++ "\\n\\nCONCISE SUMMARY:")

/-- `getDefaultCombinePrompt` (same escaped-backslash base as
`getDefaultPrompt`, with the wording "the following text:"). -/
def getDefaultCombinePrompt (c : Chain) : BasePromptTemplate :=
  fun v => createSizeConstrainedPrompt c
    ("Write a concise summary of the following text:\\n\\n" ++ v.text ++ "\\n\\nCONCISE SUMMARY:")

/-- `getDefaultRefinePrompt` (a backtick template literal, hence real
newlines), with `{existing_answer}` and `{text}` substituted. -/
def getDefaultRefinePrompt (c : Chain) : BasePromptTemplate :=
  fun v => createSizeConstrainedPrompt c
    ("Your job is to produce a final summary.\nWe have provided an existing summary up to a certain point: " ++
     v.existing_answer ++
     "\nWe have the opportunity to refine the existing summary (only if needed) with some more context below.\n------------\n" ++
     v.text ++
     "\n------------\nGiven the new context, refine the original summary. If the context isn\x27t useful, return the original summary.")

/-- `createSizeConstrainedAgentExecutor`: `null` when the limit is falsy;
otherwise the tool-calling executor is built from external library machinery
(`createToolCallingAgent` / `AgentExecutor` with the counting and validation
tools), whose observable run behaviour is the abstract `env.agent` (a
construction failure is folded into a failing run — both surface as the same
thrown error at the caller). -/
def createSizeConstrainedAgentExecutor (env : Env) (c : Chain) :
    Option (String → Except String String) :=
  if truthy c.outputSize = false then none
  else some env.agent

/-- `invokeSummarizationWithAgent`: plain model call on the
`taskDescription\n\n{text}` template (real newlines — a backtick literal)
when no limit is set or the agent flag is off; otherwise run the agent
executor on `taskDescription\n\nText to summarize:\n{input}`, falling back
to a size-constrained plain call if the executor is `null`. -/
def invokeSummarizationWithAgent (env : Env) (c : Chain)
    (inputText taskDescription : String) (st : St) : Except String String × St :=
  if truthy c.outputSize = false ∨ c.useAgent = false then
    let formattedPrompt := taskDescription ++ "\n\n" ++ inputText
    let gen := modelInvoke c.model st formattedPrompt
    (Except.ok gen.1, gen.2)
  else
    match createSizeConstrainedAgentExecutor env c with
    | none =>
        let p := createSizeConstrainedPrompt c taskDescription
        let promptText := p ++ "\n\n" ++ inputText
        let gen := modelInvoke c.model st promptText
        (Except.ok gen.1, gen.2)
    | some agentExecutor =>
        let agentInput := taskDescription ++ "\n\nText to summarize:\n" ++ inputText
        let st1 : St := { st with events := st.events ++ [Event.agentCall agentInput] }
        (agentExecutor agentInput, st1)

/-- One batch group of `processDocumentsInBatches`: the source maps the group
to promises and awaits them all (`Promise.all`); the trace records the
invocations in item order, which is also the order the results come back in. -/
def processBatch (m : LModel) (fmt : BasePromptTemplate) :
    List Document → St → List String × St
  | [], st => ([], st)
  | doc :: rest, st =>
      let formatted := fmt { text := doc.pageContent }
      let gen := modelInvoke m st formatted
      let tail := processBatch m fmt rest gen.2
      (gen.1 :: tail.1, tail.2)

/-- The `for (let i = 0; i < documents.length; i += this.batchSize)` loop of
`processDocumentsInBatches`, recursing on the unprocessed suffix: the slice
`[i, i + B)` is `take B`, the next iteration starts from `drop B`, and the
source guard `i + this.batchSize < documents.length` is exactly "`drop B` is
nonempty".  Termination needs `0 < B`, which the constructor's clamping
guarantees (with `B = 0` the source loop never advances). -/
def processBatchesGo (m : LModel) (fmt : BasePromptTemplate) (B delay : Nat)
    (hB : 0 < B) (docs : List Document) (st : St) : List String × St :=
  match docs with
  | [] => ([], st)
  | d :: ds =>
      let batch := (d :: ds).take B
      let group := processBatch m fmt batch st
      let rest := (d :: ds).drop B
      let st2 := if 0 < rest.length ∧ 0 < delay then pushSleep group.2 delay else group.2
      let tail := processBatchesGo m fmt B delay hB rest st2
      (group.1 ++ tail.1, tail.2)
termination_by docs.length
decreasing_by simp only [List.length_drop, List.length_cons]; omega

/-- `processDocumentsInBatches(documents, promptTemplate)`. -/
def processDocumentsInBatches (c : Chain) (promptTemplate : Option BasePromptTemplate)
    (docs : List Document) (st : St) : List String × St :=
  let prompt := promptTemplate.getD (getDefaultPrompt c)
  processBatchesGo c.model prompt c.batchSize c.delayBetweenBatches c.batchSize_pos docs st

/-- The `sizeValidation` object placed in the returned output: the
`validateOutputSize` record spread together with `retryCount`. -/
structure OutputValidation extends SizeValidation where
  retryCount : Nat
deriving DecidableEq, Repr

/-- The `output` object of a strategy result (`{text, sizeValidation}`). -/
structure SummarizationResult where
  text : String
  sizeValidation : OutputValidation
deriving DecidableEq, Repr

/-- The combined text of the Stuff strategy:
`documents.map((doc) => doc.pageContent).join('\\n\\n')`.  The separator in
the source is a single-quoted literal with ESCAPED backslashes, i.e. the four
characters backslash-n-backslash-n — literal text, not a blank line. -/
def stuffCombinedText (docs : List Document) : String :=
  String.intercalate "\\n\\n" (docs.map (fun doc => doc.pageContent))

/-- The generation phase of `stuff` (everything before `validateOutputSize`):
agent-assisted when both the limit and the flag are set, with the caught
fallback to the traditional path; traditional otherwise.  Returns the
combined text (needed again by the retry), the generated text, and the state. -/
def stuffGenerate (env : Env) (c : Chain) (docs : List Document) (st : St) :
    String × String × St :=
  let combinedText := stuffCombinedText docs
  if truthy c.outputSize = true ∧ c.useAgent = true then
    let attempt := invokeSummarizationWithAgent env c combinedText
      "Write a concise summary of the following text:" st
    match attempt.1 with
    | Except.ok outputText => (combinedText, outputText, attempt.2)
    | Except.error _ =>
        let prompt := c.prompt.getD (getDefaultPrompt c)
        let formattedPrompt := prompt { text := combinedText }
        let gen := modelInvoke c.model attempt.2 formattedPrompt
        (combinedText, gen.1, gen.2)
  else
    let prompt := c.prompt.getD (getDefaultPrompt c)
    let formattedPrompt := prompt { text := combinedText }
    let gen := modelInvoke c.model st formattedPrompt
    (combinedText, gen.1, gen.2)

/-- The `stuff` strategy: generate, validate, and — when invalid with a
truthy limit — regenerate through `retryWithShorterPrompt` and re-validate;
the result is returned (never thrown) with `retryCount` `1` on the retry
path and `0` otherwise. -/
def stuff (env : Env) (c : Chain) (docs : List Document) (st : St) :
    SummarizationResult × St :=
  let gen := stuffGenerate env c docs st
  let sizeValidation := validateOutputSize env c gen.2.1
  if sizeValidation.isValid = false ∧ truthy c.outputSize = true then
    let prompt := c.prompt.getD (getDefaultPrompt c)
    let retried := retryWithShorterPrompt env c gen.1 prompt 1 gen.2.2
    let sizeValidation2 := validateOutputSize env c retried.1
    ({ text := retried.1
       sizeValidation := { toSizeValidation := sizeValidation2, retryCount := 1 } }, retried.2)
  else
    ({ text := gen.2.1
       sizeValidation := { toSizeValidation := sizeValidation, retryCount := 0 } }, gen.2.2)

/-- The generation phase of `mapReduce`: batched map over the documents with
the map prompt, then the combine step (agent-assisted with caught fallback,
or traditional).  The intermediate `summaryDocs` objects only carry the map
outputs back into the join, so the combined text is the summaries joined by
the same escaped-backslash separator `'\\n\\n'` in original order. -/
def mapReduceGenerate (env : Env) (c : Chain) (docs : List Document) (st : St) :
    String × String × St :=
  let mapped := processDocumentsInBatches c c.combineMapPrompt docs st
  let combinedText := String.intercalate "\\n\\n" mapped.1
  if truthy c.outputSize = true ∧ c.useAgent = true then
    let attempt := invokeSummarizationWithAgent env c combinedText
      "Write a concise summary of the following summaries:" mapped.2
    match attempt.1 with
    | Except.ok outputText => (combinedText, outputText, attempt.2)
    | Except.error _ =>
        let combinePrompt := c.combinePrompt.getD (getDefaultCombinePrompt c)
        let finalSummary := combinePrompt { text := combinedText }
        let gen := modelInvoke c.model attempt.2 finalSummary
        (combinedText, gen.1, gen.2)
  else
    let combinePrompt := c.combinePrompt.getD (getDefaultCombinePrompt c)
    let finalSummary := combinePrompt { text := combinedText }
    let gen := modelInvoke c.model mapped.2 finalSummary
    (combinedText, gen.1, gen.2)

/-- The `mapReduce` strategy: map-phase + combine, validate, retry as backup. -/
def mapReduce (env : Env) (c : Chain) (docs : List Document) (st : St) :
    SummarizationResult × St :=
  let gen := mapReduceGenerate env c docs st
  let sizeValidation := validateOutputSize env c gen.2.1
  if sizeValidation.isValid = false ∧ truthy c.outputSize = true then
    let combinePrompt := c.combinePrompt.getD (getDefaultCombinePrompt c)
    let retried := retryWithShorterPrompt env c gen.1 combinePrompt 1 gen.2.2
    let sizeValidation2 := validateOutputSize env c retried.1
    ({ text := retried.1
       sizeValidation := { toSizeValidation := sizeValidation2, retryCount := 1 } }, retried.2)
  else
    ({ text := gen.2.1
       sizeValidation := { toSizeValidation := sizeValidation, retryCount := 0 } }, gen.2.2)

/-- The inner `for (const doc of batch)` of `refine`: sequentially fold each
document of the group into the running summary through the refine prompt. -/
def refineBatchFold (m : LModel) (refinePT : BasePromptTemplate) :
    List Document → String → St → String × St
  | [], current, st => (current, st)
  | doc :: rest, current, st =>
      let refineFormatted := refinePT { text := doc.pageContent, existing_answer := current }
      let gen := modelInvoke m st refineFormatted
      refineBatchFold m refinePT rest gen.1 gen.2

/-- The batched outer loop of `refine` over the remaining documents, with the
same slicing, guard and inter-batch sleep as `processBatchesGo`. -/
def refineGo (m : LModel) (refinePT : BasePromptTemplate) (B delay : Nat)
    (hB : 0 < B) (docs : List Document) (current : String) (st : St) : String × St :=
  match docs with
  | [] => (current, st)
  | d :: ds =>
      let batch := (d :: ds).take B
      let folded := refineBatchFold m refinePT batch current st
      let rest := (d :: ds).drop B
      let st2 := if 0 < rest.length ∧ 0 < delay then pushSleep folded.2 delay else folded.2
      refineGo m refinePT B delay hB rest folded.1 st2
termination_by docs.length
decreasing_by simp only [List.length_drop, List.length_cons]; omega

/-- The generation phase of `refine` on a nonempty document list: initial
summary from the first document via the question prompt, then the batched
refinement loop over the rest.  (The source guards the loop with
`documents.length > 1`; with no remaining documents the loop body never runs,
so recursing on the possibly-empty rest is equivalent.) -/
def refineGenerate (c : Chain) (firstDoc : Document) (restDocs : List Document)
    (st : St) : String × St :=
  let questionPrompt := c.questionPrompt.getD (getDefaultPrompt c)
  let refinePT := c.refinePrompt.getD (getDefaultRefinePrompt c)
  let initialPrompt := questionPrompt { text := firstDoc.pageContent }
  let gen := modelInvoke c.model st initialPrompt
  refineGo c.model refinePT c.batchSize c.delayBetweenBatches c.batchSize_pos
    restDocs gen.1 gen.2

/-- The `refine` strategy.  An empty document list short-circuits to the
empty-text result (note: the empty text is still validated against the raw
configured limit).  Otherwise: generate, validate, retry as in the other
strategies (the retry input text is the final running summary itself). -/
def refine (env : Env) (c : Chain) (docs : List Document) (st : St) :
    SummarizationResult × St :=
  match docs with
  | [] =>
      let sizeValidation := validateOutputSize env c ""
      ({ text := ""
         sizeValidation := { toSizeValidation := sizeValidation, retryCount := 0 } }, st)
  | firstDoc :: restDocs =>
      let refinePT := c.refinePrompt.getD (getDefaultRefinePrompt c)
      let gen := refineGenerate c firstDoc restDocs st
      let sizeValidation := validateOutputSize env c gen.1
      if sizeValidation.isValid = false ∧ truthy c.outputSize = true then
        let retried := retryWithShorterPrompt env c gen.1 refinePT 1 gen.2
        let sizeValidation2 := validateOutputSize env c retried.1
        ({ text := retried.1
           sizeValidation := { toSizeValidation := sizeValidation2, retryCount := 1 } }, retried.2)
      else
        ({ text := gen.1
           sizeValidation := { toSizeValidation := sizeValidation, retryCount := 0 } }, gen.2)

/-- `invoke`: dispatch on the runtime strategy-type string; any other value
throws `Unknown summarization type: ...` before any generation happens. -/
def invoke (env : Env) (c : Chain) (documents : List Document) (st : St) :
    Except String SummarizationResult × St :=
  if c.type = "map_reduce" then
    let r := mapReduce env c documents st
    (Except.ok r.1, r.2)
  else if c.type = "stuff" then
    let r := stuff env c documents st
    (Except.ok r.1, r.2)
  else if c.type = "refine" then
    let r := refine env c documents st
    (Except.ok r.1, r.2)
  else
    (Except.error ("Unknown summarization type: " ++ c.type), st)

/-- `withConfig(config)`: when the config is truthy and the model exposes a
`withConfig` method, rebind the model handle; every other setting is kept.
(The source performs the rebinding by mutating `this.model` and returning
`this`; in this pure embedding that is the returned record value.) -/
def withConfig (c : Chain) (config : Option String) : Chain :=
  match config, c.model.reconfig with
  | some cfg, some f => { c with model := f cfg }
  | _, _ => c

/-- The number of sleep suspensions in an event list. -/
def sleepCount (events : List Event) : Nat :=
  (events.filter (fun e => match e with | .sleepCall _ => true | _ => false)).length

/-- Concrete fixture: a model answering "Summary i" on the i-th invocation. -/
def wModel : LModel := .plain (fun i _ => "Summary " ++ toString (i + 1))

/-- Concrete fixture: a model whose every response is 10 characters long. -/
def wLongModel : LModel := .plain (fun _ _ => "0123456789")

/-- Concrete fixture environment: the fallback approximate tokenizer and an
agent whose run always throws. -/
def wEnv : Env := { tok := fun s => (s.length + 3) / 4, agent := fun _ => Except.error "agent failure" }

/-- Concrete fixture: the fresh run state. -/
def wSt : St := ⟨0, []⟩

/-- Concrete fixture: three documents. -/
def wDocs : List Document :=
  [⟨"Document 1 content", []⟩, ⟨"Document 2 content", []⟩, ⟨"Document 3 content", []⟩]

/-- Concrete fixture chain: map_reduce, batch size 2, delay 100, no limit. -/
def wChain : Chain :=
  { model := wModel, type := "map_reduce", batchSize := 2
    batchSize_pos := by decide, delayBetweenBatches := 100 }

/-- Concrete fixture chain: stuff with a character limit of 5 that the
10-character model responses always violate. -/
def wChainLim : Chain :=
  { model := wLongModel, type := "stuff", batchSize := 5
    batchSize_pos := by decide, delayBetweenBatches := 0, outputSize := some 5 }

/-- Concrete fixture: a trivial custom prompt template. -/
def wPT : BasePromptTemplate := fun v => v.text

/-- Concrete fixture chain: refine with a negative configured limit (the
constructor does not clamp `outputSize`). -/
def wChainNeg : Chain :=
  { model := wModel, type := "refine", batchSize := 5
    batchSize_pos := by decide, delayBetweenBatches := 0, outputSize := some (-1) }

/-- Concrete fixture chain: an unknown strategy-type string. -/
def wChainUnknown : Chain := { wChain with type := "unknown" }

/-- Concrete fixture constructor parameters with out-of-range raw values
(negative batch size, over-limit delay). -/
def wParamsOutOfRange : ChainParams :=
  { model := wModel, type := "map_reduce", batchSize := some (-7)
    delayBetweenBatches := some 99999999 }

/-- The same chain with the output size limit erased (used to compare a
configured limit of `0` against an absent limit). -/
def eraseLimit (c : Chain) : Chain := { c with outputSize := none }

theorem clampBatchSize_pos (raw : Int) : 0 < clampBatchSize raw := by
  unfold clampBatchSize MIN_BATCH_SIZE MAX_BATCH_SIZE
  omega

theorem clampBatchSize_le (raw : Int) : clampBatchSize raw ≤ 1000 := by
  unfold clampBatchSize MIN_BATCH_SIZE MAX_BATCH_SIZE
  omega

theorem clampDelay_le (raw : Int) : clampDelay raw ≤ 600000 := by
  unfold clampDelay MIN_DELAY MAX_DELAY
  omega

theorem sleepCount_append (l1 l2 : List Event) :
    sleepCount (l1 ++ l2) = sleepCount l1 + sleepCount l2 := by
  simp [sleepCount, List.filter_append]

theorem sleepCount_modelCall (p r : String) : sleepCount [Event.modelCall p r] = 0 := rfl

theorem sleepCount_sleepCall (ms : Nat) : sleepCount [Event.sleepCall ms] = 1 := rfl

/-- `processBatch` invokes the model once per document of the group, in
order, and never sleeps. -/
theorem processBatch_spec (m : LModel) (fmt : BasePromptTemplate) :
    ∀ (batch : List Document) (st : St),
      (processBatch m fmt batch st).1.length = batch.length
    ∧ (processBatch m fmt batch st).2.calls = st.calls + batch.length
    ∧ sleepCount (processBatch m fmt batch st).2.events = sleepCount st.events := by
  intro batch
  induction batch with
  | nil => intro st; simp [processBatch]
  | cons d ds ih =>
      intro st
      obtain ⟨h1, h2, h3⟩ := ih (modelInvoke m st (fmt { text := d.pageContent })).2
      have hc : (modelInvoke m st (fmt { text := d.pageContent })).2.calls
          = st.calls + 1 := rfl
      have he : sleepCount (modelInvoke m st (fmt { text := d.pageContent })).2.events
          = sleepCount st.events := by
        simp [modelInvoke, sleepCount_append, sleepCount_modelCall]
      simp only [processBatch]
      refine ⟨by simp [h1], ?_, ?_⟩
      · rw [h2, hc, List.length_cons]
        omega
      · rw [h3, he]

/-- The number of batch groups, `ceil(n / b)`, equals `1` for a single
(possibly short) group. -/
theorem ceilGroups_one (n B : Nat) (hB : 0 < B) (h1 : 1 ≤ n) (h2 : n ≤ B) :
    (n + B - 1) / B = 1 := by
  apply Nat.div_eq_of_lt_le <;> omega

/-- Peeling one full group off the front adds one to the group count. -/
theorem ceilGroups_step (n B : Nat) (hB : 0 < B) (h : B < n) :
    (n + B - 1) / B = (n - B + B - 1) / B + 1 := by
  have h1 : n - B + B - 1 = n - 1 := by omega
  have h2 : n + B - 1 = (n - 1) + B := by omega
  rw [h1, h2, Nat.add_div_right _ hB]

/-- Full accounting of the batching loop: one model call per document,
results in one-to-one correspondence, and (with a positive configured delay)
exactly `groupCount - 1` sleeps, where `groupCount = ceil(n / B)`. -/
theorem processBatchesGo_spec (m : LModel) (fmt : BasePromptTemplate) (B delay : Nat)
    (hB : 0 < B) :
    ∀ (n : Nat) (docs : List Document), docs.length = n → ∀ (st : St),
      (processBatchesGo m fmt B delay hB docs st).1.length = docs.length
    ∧ (processBatchesGo m fmt B delay hB docs st).2.calls = st.calls + docs.length
    ∧ (0 < delay →
        sleepCount (processBatchesGo m fmt B delay hB docs st).2.events
          = sleepCount st.events + ((docs.length + B - 1) / B - 1))
    ∧ (delay = 0 →
        sleepCount (processBatchesGo m fmt B delay hB docs st).2.events
          = sleepCount st.events) := by
  intro n
  induction n using Nat.strong_induction_on with
  | _ n ih =>
    intro docs hlen st
    match docs with
    | [] =>
        refine ⟨by simp [processBatchesGo], by simp [processBatchesGo], ?_,
          by simp [processBatchesGo]⟩
        intro _
        have h0 : (B - 1) / B = 0 := Nat.div_eq_of_lt (by omega)
        simp [processBatchesGo, h0]
    | d :: ds =>
        have hlen' : (d :: ds).length = n := hlen
        have hn : 0 < n := by
          rw [List.length_cons] at hlen'
          omega
        obtain ⟨hb1, hb2, hb3⟩ := processBatch_spec m fmt ((d :: ds).take B) st
        have hrest : ((d :: ds).drop B).length = n - B := by
          rw [List.length_drop, hlen']
        have htake : ((d :: ds).take B).length = min B n := by
          rw [List.length_take, hlen']
        have hlt : n - B < n := by omega
        simp only [processBatchesGo]
        -- the state after the group and the conditional sleep
        set st1 := (processBatch m fmt ((d :: ds).take B) st).2 with hst1
        set st2 := if 0 < ((d :: ds).drop B).length ∧ 0 < delay
          then pushSleep st1 delay else st1 with hst2
        obtain ⟨h1, h2, h3, h4⟩ := ih (n - B) hlt ((d :: ds).drop B) hrest st2
        have hcalls2 : st2.calls = st1.calls := by
          rw [hst2]
          by_cases hc : 0 < ((d :: ds).drop B).length ∧ 0 < delay
          · rw [if_pos hc]; rfl
          · rw [if_neg hc]
        have hsleep2 : sleepCount st2.events
            = sleepCount st1.events + (if B < n ∧ 0 < delay then 1 else 0) := by
          have hc' : 0 < ((d :: ds).drop B).length ↔ B < n := by
            rw [hrest]; omega
          by_cases hc : 0 < ((d :: ds).drop B).length ∧ 0 < delay
          · rw [hst2, if_pos hc, if_pos ⟨hc'.mp hc.1, hc.2⟩]
            simp [pushSleep, sleepCount_append, sleepCount_sleepCall]
          · rw [hst2, if_neg hc, if_neg (fun hcon => hc ⟨hc'.mpr hcon.1, hcon.2⟩)]
            simp
        refine ⟨?_, ?_, ?_, ?_⟩
        · rw [List.length_append, hb1, h1, htake, hrest, hlen']
          omega
        · rw [h2, hcalls2, hb2, htake, hrest, hlen']
          omega
        · intro hd
          rw [h3 hd, hsleep2, hb3, hrest, hlen']
          by_cases hcase : B < n
          · have hstep := ceilGroups_step n B hB hcase
            have hge : 1 ≤ (n - B + B - 1) / B := by
              have hBle : B ≤ n - B + B - 1 := by omega
              calc 1 = B / B := (Nat.div_self hB).symm
              _ ≤ (n - B + B - 1) / B := Nat.div_le_div_right hBle
            rw [if_pos ⟨hcase, hd⟩]
            omega
          · have hone : (n + B - 1) / B = 1 := ceilGroups_one n B hB (by omega) (by omega)
            have hzero : (n - B + B - 1) / B = 0 := by
              apply Nat.div_eq_of_lt
              omega
            rw [if_neg (fun hcon => hcase hcon.1)]
            omega
        · intro hd
          rw [h4 hd, hsleep2, hb3]
          simp [hd]

theorem truthy_none : truthy none = false := rfl

theorem truthy_some_zero : truthy (some 0) = false := rfl

/-- With a falsy limit every validation is the bare always-valid record. -/
theorem validateOutputSize_of_falsy (env : Env) (c : Chain) (text : String)
    (h : truthy c.outputSize = false) :
    validateOutputSize env c text
      = { isValid := true, actualSize := measureTextSize env c text
          unit := measurementStr c.sizeMeasurement } := by
  simp [validateOutputSize, h]

/-- An invalid validation can only arise under a truthy limit. -/
theorem truthy_of_invalid (env : Env) (c : Chain) (text : String)
    (h : (validateOutputSize env c text).isValid = false) :
    truthy c.outputSize = true := by
  by_contra hcon
  have hf : truthy c.outputSize = false := by
    cases hx : truthy c.outputSize
    · rfl
    · exact absurd hx hcon
  rw [validateOutputSize_of_falsy env c text hf] at h
  simp at h

/-- An invalid validation always carries a populated warning. -/
theorem warning_of_invalid (env : Env) (c : Chain) (text : String)
    (h : (validateOutputSize env c text).isValid = false) :
    (validateOutputSize env c text).warning.isSome = true := by
  have ht := truthy_of_invalid env c text h
  unfold validateOutputSize at h ⊢
  rw [ht] at h ⊢
  simp only [Bool.true_eq_false, if_false] at h ⊢
  split at h
  · simp_all
  · split
    · simp_all
    · simp

/-- One unfolding of the recursive retry loop. -/
theorem retry_eq (env : Env) (c : Chain) (text : String) (pt : BasePromptTemplate)
    (attempt : Nat) (st : St) :
    retryWithShorterPrompt env c text pt attempt st
      = (if (validateOutputSize env c (modelInvoke c.model st
            (strictPromptTemplate c attempt (min (attempt - 1) 2) text)).1).isValid = true
            ∨ 3 ≤ attempt
         then modelInvoke c.model st (strictPromptTemplate c attempt (min (attempt - 1) 2) text)
         else retryWithShorterPrompt env c text pt (attempt + 1)
           (modelInvoke c.model st (strictPromptTemplate c attempt (min (attempt - 1) 2) text)).2) := by
  rw [retryWithShorterPrompt]

/-- The retry loop stops (returning the fresh generation) as soon as the
regenerated text validates or the attempt ceiling is reached. -/
theorem retry_stop (env : Env) (c : Chain) (text : String) (pt : BasePromptTemplate)
    (attempt : Nat) (st : St)
    (h : (validateOutputSize env c (modelInvoke c.model st
        (strictPromptTemplate c attempt (min (attempt - 1) 2) text)).1).isValid = true
      ∨ 3 ≤ attempt) :
    retryWithShorterPrompt env c text pt attempt st
      = modelInvoke c.model st (strictPromptTemplate c attempt (min (attempt - 1) 2) text) := by
  rw [retry_eq, if_pos h]

/-- The retry loop recurses with `attempt + 1` while the regeneration is
still invalid and `attempt < 3`. -/
theorem retry_continue (env : Env) (c : Chain) (text : String) (pt : BasePromptTemplate)
    (attempt : Nat) (st : St)
    (hv : (validateOutputSize env c (modelInvoke c.model st
        (strictPromptTemplate c attempt (min (attempt - 1) 2) text)).1).isValid = false)
    (ha : attempt < 3) :
    retryWithShorterPrompt env c text pt attempt st
      = retryWithShorterPrompt env c text pt (attempt + 1)
          (modelInvoke c.model st (strictPromptTemplate c attempt (min (attempt - 1) 2) text)).2 := by
  rw [retry_eq, if_neg]
  intro hcon
  rcases hcon with hcon | hcon
  · rw [hv] at hcon; exact Bool.false_ne_true hcon
  · omega

/-- `modelInvoke` bumps the call counter by one. -/
theorem modelInvoke_calls (m : LModel) (st : St) (p : String) :
    (modelInvoke m st p).2.calls = st.calls + 1 := rfl

/-- Claim C1: for every document sequence of length `N` and every chain —
whose configured batch size `B` is at least 1 by construction — the batched
map phase `processDocumentsInBatches` invokes the per-item generation
exactly `N` times, returns exactly `N` outputs, and issues exactly
`max(0, ceil(N/B) - 1)` inter-batch delay suspensions when a positive delay
is configured (and none at all when the configured delay is zero, the only
other possibility); zero documents produce an empty result and an unchanged
state — zero groups, zero delays. -/
theorem claim_C1_batch_counts (c : Chain) (pt : Option BasePromptTemplate)
    (docs : List Document) (st : St) :
    (processDocumentsInBatches c pt docs st).1.length = docs.length
  ∧ (processDocumentsInBatches c pt docs st).2.calls = st.calls + docs.length
  ∧ (0 < c.delayBetweenBatches →
      sleepCount (processDocumentsInBatches c pt docs st).2.events
        = sleepCount st.events + ((docs.length + c.batchSize - 1) / c.batchSize - 1))
  ∧ (c.delayBetweenBatches = 0 →
      sleepCount (processDocumentsInBatches c pt docs st).2.events = sleepCount st.events)
  ∧ (docs = [] → processDocumentsInBatches c pt docs st = ([], st)) := by
  obtain ⟨h1, h2, h3, h4⟩ := processBatchesGo_spec c.model (pt.getD (getDefaultPrompt c))
    c.batchSize c.delayBetweenBatches c.batchSize_pos docs.length docs rfl st
  refine ⟨h1, h2, h3, h4, ?_⟩
  intro h
  subst h
  simp [processDocumentsInBatches, processBatchesGo]

/-- Entering the retry loop at `attempt = 1` performs between one and three
generations, and exactly three whenever the returned text is still invalid
(the loop only ever returns an invalid text after exhausting the ceiling). -/
theorem retry_calls_bounds (env : Env) (c : Chain) (text : String)
    (pt : BasePromptTemplate) (st : St) :
    st.calls + 1 ≤ (retryWithShorterPrompt env c text pt 1 st).2.calls
  ∧ (retryWithShorterPrompt env c text pt 1 st).2.calls ≤ st.calls + 3
  ∧ ((validateOutputSize env c (retryWithShorterPrompt env c text pt 1 st).1).isValid = false →
      (retryWithShorterPrompt env c text pt 1 st).2.calls = st.calls + 3) := by
  by_cases hv1 : (validateOutputSize env c (modelInvoke c.model st
      (strictPromptTemplate c 1 (min (1 - 1) 2) text)).1).isValid = true
  · rw [retry_stop env c text pt 1 st (Or.inl hv1)]
    refine ⟨le_of_eq (modelInvoke_calls _ _ _).symm, by rw [modelInvoke_calls]; omega, ?_⟩
    intro hbad
    rw [hv1] at hbad
    exact absurd hbad (by simp)
  · have hv1' : (validateOutputSize env c (modelInvoke c.model st
        (strictPromptTemplate c 1 (min (1 - 1) 2) text)).1).isValid = false := by
      cases hx : (validateOutputSize env c (modelInvoke c.model st
          (strictPromptTemplate c 1 (min (1 - 1) 2) text)).1).isValid
      · rfl
      · exact absurd hx hv1
    rw [retry_continue env c text pt 1 st hv1' (by omega)]
    set st2 := (modelInvoke c.model st (strictPromptTemplate c 1 (min (1 - 1) 2) text)).2 with hst2
    have hc2 : st2.calls = st.calls + 1 := modelInvoke_calls _ _ _
    by_cases hv2 : (validateOutputSize env c (modelInvoke c.model st2
        (strictPromptTemplate c 2 (min (2 - 1) 2) text)).1).isValid = true
    · rw [retry_stop env c text pt 2 st2 (Or.inl hv2)]
      refine ⟨?_, ?_, ?_⟩
      · rw [modelInvoke_calls]; omega
      · rw [modelInvoke_calls]; omega
      · intro hbad
        rw [hv2] at hbad
        exact absurd hbad (by simp)
    · have hv2' : (validateOutputSize env c (modelInvoke c.model st2
          (strictPromptTemplate c 2 (min (2 - 1) 2) text)).1).isValid = false := by
        cases hx : (validateOutputSize env c (modelInvoke c.model st2
            (strictPromptTemplate c 2 (min (2 - 1) 2) text)).1).isValid
        · rfl
        · exact absurd hx hv2
      rw [retry_continue env c text pt 2 st2 hv2' (by omega)]
      set st3 := (modelInvoke c.model st2 (strictPromptTemplate c 2 (min (2 - 1) 2) text)).2 with hst3
      have hc3 : st3.calls = st.calls + 2 := by
        rw [hst3, modelInvoke_calls, hc2]
      rw [retry_stop env c text pt 3 st3 (Or.inr (by omega))]
      refine ⟨?_, ?_, fun _ => ?_⟩ <;> rw [modelInvoke_calls] <;> omega

/-- The retry branch of `stuff`, taken exactly when the first validation
failed under a truthy limit. -/
theorem stuff_retry_branch (env : Env) (c : Chain) (docs : List Document) (st : St)
    (h : (validateOutputSize env c (stuffGenerate env c docs st).2.1).isValid = false)
    (ht : truthy c.outputSize = true) :
    stuff env c docs st
      = ({ text := (retryWithShorterPrompt env c (stuffGenerate env c docs st).1
            (c.prompt.getD (getDefaultPrompt c)) 1 (stuffGenerate env c docs st).2.2).1
           sizeValidation :=
            { toSizeValidation := validateOutputSize env c
                (retryWithShorterPrompt env c (stuffGenerate env c docs st).1
                  (c.prompt.getD (getDefaultPrompt c)) 1 (stuffGenerate env c docs st).2.2).1
              retryCount := 1 } },
         (retryWithShorterPrompt env c (stuffGenerate env c docs st).1
            (c.prompt.getD (getDefaultPrompt c)) 1 (stuffGenerate env c docs st).2.2).2) := by
  simp only [stuff]
  rw [if_pos ⟨h, ht⟩]

/-- The non-retry branch of `stuff` (first validation passed, or no truthy
limit configured). -/
theorem stuff_pass_branch (env : Env) (c : Chain) (docs : List Document) (st : St)
    (h : ¬((validateOutputSize env c (stuffGenerate env c docs st).2.1).isValid = false
        ∧ truthy c.outputSize = true)) :
    stuff env c docs st
      = ({ text := (stuffGenerate env c docs st).2.1
           sizeValidation :=
            { toSizeValidation := validateOutputSize env c (stuffGenerate env c docs st).2.1
              retryCount := 0 } },
         (stuffGenerate env c docs st).2.2) := by
  simp only [stuff]
  rw [if_neg h]

/-- The retry branch of `mapReduce`. -/
theorem mapReduce_retry_branch (env : Env) (c : Chain) (docs : List Document) (st : St)
    (h : (validateOutputSize env c (mapReduceGenerate env c docs st).2.1).isValid = false)
    (ht : truthy c.outputSize = true) :
    mapReduce env c docs st
      = ({ text := (retryWithShorterPrompt env c (mapReduceGenerate env c docs st).1
            (c.combinePrompt.getD (getDefaultCombinePrompt c)) 1
            (mapReduceGenerate env c docs st).2.2).1
           sizeValidation :=
            { toSizeValidation := validateOutputSize env c
                (retryWithShorterPrompt env c (mapReduceGenerate env c docs st).1
                  (c.combinePrompt.getD (getDefaultCombinePrompt c)) 1
                  (mapReduceGenerate env c docs st).2.2).1
              retryCount := 1 } },
         (retryWithShorterPrompt env c (mapReduceGenerate env c docs st).1
            (c.combinePrompt.getD (getDefaultCombinePrompt c)) 1
            (mapReduceGenerate env c docs st).2.2).2) := by
  simp only [mapReduce]
  rw [if_pos ⟨h, ht⟩]

/-- The non-retry branch of `mapReduce`. -/
theorem mapReduce_pass_branch (env : Env) (c : Chain) (docs : List Document) (st : St)
    (h : ¬((validateOutputSize env c (mapReduceGenerate env c docs st).2.1).isValid = false
        ∧ truthy c.outputSize = true)) :
    mapReduce env c docs st
      = ({ text := (mapReduceGenerate env c docs st).2.1
           sizeValidation :=
            { toSizeValidation := validateOutputSize env c (mapReduceGenerate env c docs st).2.1
              retryCount := 0 } },
         (mapReduceGenerate env c docs st).2.2) := by
  simp only [mapReduce]
  rw [if_neg h]

/-- The retry branch of `refine` on a nonempty input. -/
theorem refine_retry_branch (env : Env) (c : Chain) (d : Document) (ds : List Document)
    (st : St)
    (h : (validateOutputSize env c (refineGenerate c d ds st).1).isValid = false)
    (ht : truthy c.outputSize = true) :
    refine env c (d :: ds) st
      = ({ text := (retryWithShorterPrompt env c (refineGenerate c d ds st).1
            (c.refinePrompt.getD (getDefaultRefinePrompt c)) 1 (refineGenerate c d ds st).2).1
           sizeValidation :=
            { toSizeValidation := validateOutputSize env c
                (retryWithShorterPrompt env c (refineGenerate c d ds st).1
                  (c.refinePrompt.getD (getDefaultRefinePrompt c)) 1
                  (refineGenerate c d ds st).2).1
              retryCount := 1 } },
         (retryWithShorterPrompt env c (refineGenerate c d ds st).1
            (c.refinePrompt.getD (getDefaultRefinePrompt c)) 1 (refineGenerate c d ds st).2).2) := by
  simp only [refine]
  rw [if_pos ⟨h, ht⟩]

/-- The non-retry branch of `refine` on a nonempty input. -/
theorem refine_pass_branch (env : Env) (c : Chain) (d : Document) (ds : List Document)
    (st : St)
    (h : ¬((validateOutputSize env c (refineGenerate c d ds st).1).isValid = false
        ∧ truthy c.outputSize = true)) :
    refine env c (d :: ds) st
      = ({ text := (refineGenerate c d ds st).1
           sizeValidation :=
            { toSizeValidation := validateOutputSize env c (refineGenerate c d ds st).1
              retryCount := 0 } },
         (refineGenerate c d ds st).2) := by
  simp only [refine]
  rw [if_neg h]

/-- Claim C2: the size-governance retry loop regenerates with the escalating
template at index `min(attempt - 1, 2)`, re-validates after each
regeneration, recurses with `attempt + 1` only while `attempt < 3` and the
regeneration is still invalid, stops immediately on a valid regeneration,
and at `attempt = 3` returns the regeneration regardless of validity; from
the standard entry `attempt = 1` it performs between 1 and 3 generations and
exactly 3 whenever the returned text is still invalid; on the caller side
(`stuff`) a failed first validation under a truthy limit routes the combined
text through the loop and the final result is returned — never thrown — with
`retryCount = 1`, and a still-oversized final result carries
`isValid = false` plus a populated warning. -/
theorem claim_C2_retry_governance (env : Env) (c : Chain) (text : String)
    (pt : BasePromptTemplate) (docs : List Document) (st st2 : St) (a : Nat) :
    (st.calls + 1 ≤ (retryWithShorterPrompt env c text pt 1 st).2.calls
      ∧ (retryWithShorterPrompt env c text pt 1 st).2.calls ≤ st.calls + 3)
  ∧ ((validateOutputSize env c (retryWithShorterPrompt env c text pt 1 st).1).isValid = false →
      (retryWithShorterPrompt env c text pt 1 st).2.calls = st.calls + 3)
  ∧ (a < 3 →
      (validateOutputSize env c (modelInvoke c.model st2
          (strictPromptTemplate c a (min (a - 1) 2) text)).1).isValid = false →
      retryWithShorterPrompt env c text pt a st2
        = retryWithShorterPrompt env c text pt (a + 1)
            (modelInvoke c.model st2 (strictPromptTemplate c a (min (a - 1) 2) text)).2)
  ∧ (3 ≤ a →
      retryWithShorterPrompt env c text pt a st2
        = modelInvoke c.model st2 (strictPromptTemplate c a (min (a - 1) 2) text))
  ∧ ((validateOutputSize env c (modelInvoke c.model st2
        (strictPromptTemplate c a (min (a - 1) 2) text)).1).isValid = true →
      retryWithShorterPrompt env c text pt a st2
        = modelInvoke c.model st2 (strictPromptTemplate c a (min (a - 1) 2) text))
  ∧ ((validateOutputSize env c (stuffGenerate env c docs st).2.1).isValid = false →
      truthy c.outputSize = true →
      stuff env c docs st
        = ({ text := (retryWithShorterPrompt env c (stuffGenerate env c docs st).1
              (c.prompt.getD (getDefaultPrompt c)) 1 (stuffGenerate env c docs st).2.2).1
             sizeValidation :=
              { toSizeValidation := validateOutputSize env c
                  (retryWithShorterPrompt env c (stuffGenerate env c docs st).1
                    (c.prompt.getD (getDefaultPrompt c)) 1 (stuffGenerate env c docs st).2.2).1
                retryCount := 1 } },
           (retryWithShorterPrompt env c (stuffGenerate env c docs st).1
              (c.prompt.getD (getDefaultPrompt c)) 1 (stuffGenerate env c docs st).2.2).2))
  ∧ ((stuff env c docs st).1.sizeValidation.isValid = false →
      (stuff env c docs st).1.sizeValidation.warning.isSome = true) := by
  refine ⟨⟨(retry_calls_bounds env c text pt st).1, (retry_calls_bounds env c text pt st).2.1⟩,
    (retry_calls_bounds env c text pt st).2.2,
    fun ha hv => retry_continue env c text pt a st2 hv ha,
    fun ha => retry_stop env c text pt a st2 (Or.inr ha),
    fun hv => retry_stop env c text pt a st2 (Or.inl hv),
    fun hv ht => stuff_retry_branch env c docs st hv ht,
    ?_⟩
  intro h
  by_cases hcond : (validateOutputSize env c (stuffGenerate env c docs st).2.1).isValid = false
      ∧ truthy c.outputSize = true
  · rw [stuff_retry_branch env c docs st hcond.1 hcond.2] at h ⊢
    exact warning_of_invalid env c _ h
  · rw [stuff_pass_branch env c docs st hcond] at h ⊢
    exact warning_of_invalid env c _ h

theorem claim_C2_retry_governance_witness :
    (wSt.calls + 1 ≤ (retryWithShorterPrompt wEnv wChainLim "text to shrink" wPT 1 wSt).2.calls)
  ∧ ((retryWithShorterPrompt wEnv wChainLim "text to shrink" wPT 1 wSt).2.calls
      = wSt.calls + 3)
  ∧ (retryWithShorterPrompt wEnv wChainLim "text to shrink" wPT 3 wSt
      = modelInvoke wChainLim.model wSt
          (strictPromptTemplate wChainLim 3 (min (3 - 1) 2) "text to shrink"))
  ∧ (stuff wEnv wChainLim wDocs wSt).1.sizeValidation.retryCount = 1 := by
  have hstep1 := (claim_C2_retry_governance wEnv wChainLim "text to shrink" wPT wDocs wSt
    wSt 1).2.2.1 (by omega) (by decide)
  have hstep2 := (claim_C2_retry_governance wEnv wChainLim "text to shrink" wPT wDocs wSt
    (modelInvoke wChainLim.model wSt
      (strictPromptTemplate wChainLim 1 (min (1 - 1) 2) "text to shrink")).2 2).2.2.1
    (by omega) (by decide)
  have hstep3 := (claim_C2_retry_governance wEnv wChainLim "text to shrink" wPT wDocs wSt
    (modelInvoke wChainLim.model
      (modelInvoke wChainLim.model wSt
        (strictPromptTemplate wChainLim 1 (min (1 - 1) 2) "text to shrink")).2
      (strictPromptTemplate wChainLim 2 (min (2 - 1) 2) "text to shrink")).2 3).2.2.2.1
    (by omega)
  refine ⟨(claim_C2_retry_governance wEnv wChainLim "text to shrink" wPT wDocs wSt wSt 1).1.1,
    ?_, (claim_C2_retry_governance wEnv wChainLim "text to shrink" wPT wDocs wSt wSt
      3).2.2.2.1 (by omega), ?_⟩
  · rw [hstep1, hstep2, hstep3]
    decide
  · have h6 := (claim_C2_retry_governance wEnv wChainLim "text to shrink" wPT wDocs wSt
      wSt 1).2.2.2.2.2.1 (by decide) (by decide)
    rw [h6]

/-- `stuff` reports `retryCount` as the bare bit "was the first validation
invalid" (an invalid first validation forces a truthy limit, so the source's
compound retry condition collapses to it). -/
theorem stuff_retryCount (env : Env) (c : Chain) (docs : List Document) (st : St) :
    (stuff env c docs st).1.sizeValidation.retryCount
      = if (validateOutputSize env c (stuffGenerate env c docs st).2.1).isValid = true
        then 0 else 1 := by
  by_cases hv : (validateOutputSize env c (stuffGenerate env c docs st).2.1).isValid = true
  · rw [stuff_pass_branch env c docs st (fun hcon => by rw [hv] at hcon; simp at hcon)]
    rw [if_pos hv]
  · have hv' : (validateOutputSize env c (stuffGenerate env c docs st).2.1).isValid = false := by
      cases hx : (validateOutputSize env c (stuffGenerate env c docs st).2.1).isValid
      · rfl
      · exact absurd hx hv
    rw [stuff_retry_branch env c docs st hv' (truthy_of_invalid env c _ hv'), if_neg hv]

/-- `mapReduce` reports `retryCount` the same way. -/
theorem mapReduce_retryCount (env : Env) (c : Chain) (docs : List Document) (st : St) :
    (mapReduce env c docs st).1.sizeValidation.retryCount
      = if (validateOutputSize env c (mapReduceGenerate env c docs st).2.1).isValid = true
        then 0 else 1 := by
  by_cases hv : (validateOutputSize env c (mapReduceGenerate env c docs st).2.1).isValid = true
  · rw [mapReduce_pass_branch env c docs st (fun hcon => by rw [hv] at hcon; simp at hcon)]
    rw [if_pos hv]
  · have hv' : (validateOutputSize env c (mapReduceGenerate env c docs st).2.1).isValid
        = false := by
      cases hx : (validateOutputSize env c (mapReduceGenerate env c docs st).2.1).isValid
      · rfl
      · exact absurd hx hv
    rw [mapReduce_retry_branch env c docs st hv' (truthy_of_invalid env c _ hv'), if_neg hv]

/-- `refine` on a nonempty input reports `retryCount` the same way. -/
theorem refine_retryCount_cons (env : Env) (c : Chain) (d : Document)
    (ds : List Document) (st : St) :
    (refine env c (d :: ds) st).1.sizeValidation.retryCount
      = if (validateOutputSize env c (refineGenerate c d ds st).1).isValid = true
        then 0 else 1 := by
  by_cases hv : (validateOutputSize env c (refineGenerate c d ds st).1).isValid = true
  · rw [refine_pass_branch env c d ds st (fun hcon => by rw [hv] at hcon; simp at hcon)]
    rw [if_pos hv]
  · have hv' : (validateOutputSize env c (refineGenerate c d ds st).1).isValid = false := by
      cases hx : (validateOutputSize env c (refineGenerate c d ds st).1).isValid
      · rfl
      · exact absurd hx hv
    rw [refine_retry_branch env c d ds st hv' (truthy_of_invalid env c _ hv'), if_neg hv]

/-- `refine` on the empty input reports `retryCount = 0` unconditionally. -/
theorem refine_retryCount_nil (env : Env) (c : Chain) (st : St) :
    (refine env c [] st).1.sizeValidation.retryCount = 0 := rfl

/-- Claim C3: for every strategy and every input the reported `retryCount`
is binary — `0` exactly when the first size validation of the generated text
passed (in particular whenever no truthy limit is configured), `1` exactly
when the retry path was taken — and every successful `invoke` yields
`retryCount ≤ 1` no matter how many internal retry attempts occurred. -/
theorem claim_C3_retryCount_binary (env : Env) (c : Chain) (docs : List Document)
    (st : St) (d : Document) (ds : List Document) :
    ((stuff env c docs st).1.sizeValidation.retryCount
      = if (validateOutputSize env c (stuffGenerate env c docs st).2.1).isValid = true
        then 0 else 1)
  ∧ ((mapReduce env c docs st).1.sizeValidation.retryCount
      = if (validateOutputSize env c (mapReduceGenerate env c docs st).2.1).isValid = true
        then 0 else 1)
  ∧ ((refine env c (d :: ds) st).1.sizeValidation.retryCount
      = if (validateOutputSize env c (refineGenerate c d ds st).1).isValid = true
        then 0 else 1)
  ∧ ((refine env c [] st).1.sizeValidation.retryCount = 0)
  ∧ (∀ (r : SummarizationResult) (st' : St),
      invoke env c docs st = (Except.ok r, st') → r.sizeValidation.retryCount ≤ 1) := by
  refine ⟨stuff_retryCount env c docs st, mapReduce_retryCount env c docs st,
    refine_retryCount_cons env c d ds st, refine_retryCount_nil env c st, ?_⟩
  intro r st' h
  by_cases h1 : c.type = "map_reduce"
  · have hi : invoke env c docs st
        = (Except.ok (mapReduce env c docs st).1, (mapReduce env c docs st).2) := by
      simp [invoke, h1]
    rw [hi] at h
    simp only [Prod.mk.injEq, Except.ok.injEq] at h
    rw [← h.1, mapReduce_retryCount env c docs st]
    split <;> omega
  · by_cases h2 : c.type = "stuff"
    · have hi : invoke env c docs st
          = (Except.ok (stuff env c docs st).1, (stuff env c docs st).2) := by
        simp [invoke, h1, h2]
      rw [hi] at h
      simp only [Prod.mk.injEq, Except.ok.injEq] at h
      rw [← h.1, stuff_retryCount env c docs st]
      split <;> omega
    · by_cases h3 : c.type = "refine"
      · have hi : invoke env c docs st
            = (Except.ok (refine env c docs st).1, (refine env c docs st).2) := by
          simp [invoke, h1, h2, h3]
        rw [hi] at h
        simp only [Prod.mk.injEq, Except.ok.injEq] at h
        rw [← h.1]
        match docs with
        | [] => rw [refine_retryCount_nil env c st]; omega
        | d0 :: ds0 =>
            rw [refine_retryCount_cons env c d0 ds0 st]
            split <;> omega
      · have hi : invoke env c docs st
            = (Except.error ("Unknown summarization type: " ++ c.type), st) := by
          simp [invoke, h1, h2, h3]
        rw [hi] at h
        simp at h

theorem claim_C3_retryCount_binary_witness :
    ((stuff wEnv wChainLim wDocs wSt).1.sizeValidation.retryCount
      = if (validateOutputSize wEnv wChainLim
            (stuffGenerate wEnv wChainLim wDocs wSt).2.1).isValid = true then 0 else 1)
  ∧ ((refine wEnv wChainLim [] wSt).1.sizeValidation.retryCount = 0)
  ∧ ((mapReduce wEnv wChain wDocs wSt).1.sizeValidation.retryCount
      = if (validateOutputSize wEnv wChain
            (mapReduceGenerate wEnv wChain wDocs wSt).2.1).isValid = true then 0 else 1) :=
  ⟨(claim_C3_retryCount_binary wEnv wChainLim wDocs wSt ⟨"d", []⟩ []).1,
   (claim_C3_retryCount_binary wEnv wChainLim wDocs wSt ⟨"d", []⟩ []).2.2.2.1,
   (claim_C3_retryCount_binary wEnv wChain wDocs wSt ⟨"d", []⟩ []).2.1⟩

/-- Claim C4 (code-bug evidence): the Stuff concatenation at the failing
input of two documents joins with the literal four-character separator
backslash-n-backslash-n — the single-quoted `'\\n\\n'` of the source — and
NOT with two newline characters; the MapReduce reduce phase joins the map
outputs (in original order) with the very same literal separator. -/
theorem claim_C4_separator_literal_not_blank_line :
    stuffCombinedText [⟨"Document 1", []⟩, ⟨"Document 2", []⟩] = "Document 1\\n\\nDocument 2"
  ∧ stuffCombinedText [⟨"Document 1", []⟩, ⟨"Document 2", []⟩] ≠ "Document 1\n\nDocument 2"
  ∧ (stuffCombinedText [⟨"Document 1", []⟩, ⟨"Document 2", []⟩]).length = 24
  ∧ (mapReduceGenerate wEnv wChain wDocs wSt).1
      = String.intercalate "\\n\\n"
          (processDocumentsInBatches wChain wChain.combineMapPrompt wDocs wSt).1
  ∧ String.intercalate "\\n\\n" ["Summary 1", "Summary 2"] = "Summary 1\\n\\nSummary 2"
  ∧ String.intercalate "\\n\\n" ["Summary 1", "Summary 2"] ≠ "Summary 1\n\nSummary 2"
  ∧ ("\\n\\n" : String).length = 4 ∧ ("\n\n" : String).length = 2 :=
  ⟨by decide, by decide, by decide, rfl, by decide, by decide, by decide, by decide⟩

/-- Claim C5 counterexample: with a configured limit of `-1` (never clamped)
the Refine strategy on the empty document list returns
`isValid = false` — not the claimed `isValid = true` — though still with
empty text, `retryCount = 0` and no model invocation. -/
theorem claim_C5_empty_refine_counterexample :
    (refine wEnv wChainNeg [] wSt).1.sizeValidation.isValid = false
  ∧ (refine wEnv wChainNeg [] wSt).1.text = ""
  ∧ (refine wEnv wChainNeg [] wSt).1.sizeValidation.retryCount = 0
  ∧ (refine wEnv wChainNeg [] wSt).2 = wSt := by decide

/-- The empty text measures zero (for token measurement, given the tokenizer
contract that the empty string has no tokens — true of both the real
tokenizer and the `ceil(0/4)` fallback). -/
theorem measure_empty (env : Env) (c : Chain)
    (htok : c.sizeMeasurement = SizeMeasurement.tokens → env.tok "" = 0) :
    measureTextSize env c "" = 0 := by
  cases hsm : c.sizeMeasurement
  · simp [measureTextSize, hsm]
  · simp [measureTextSize, hsm, htok hsm]

/-- Validating the empty text passes whenever the configured limit (if any)
is non-negative. -/
theorem validate_empty_ok (env : Env) (c : Chain)
    (hlim : ∀ n, c.outputSize = some n → 0 ≤ n)
    (htok : c.sizeMeasurement = SizeMeasurement.tokens → env.tok "" = 0) :
    (validateOutputSize env c "").isValid = true
  ∧ (validateOutputSize env c "").warning = none := by
  have hm := measure_empty env c htok
  by_cases ht : truthy c.outputSize = false
  · rw [validateOutputSize_of_falsy env c "" ht]
    exact ⟨rfl, rfl⟩
  · match ho : c.outputSize with
    | none => rw [ho] at ht; exact absurd rfl ht
    | some n =>
      have hn := hlim n ho
      have hd : decide ((0 : Int) ≤ n) = true := decide_eq_true hn
      unfold validateOutputSize
      rw [ho] at ht
      rw [ho, if_neg ht]
      simp only [Option.getD_some]
      rw [hm]
      simp [hd]

/-- Claim C5 (amended): for the empty input document list the Refine
strategy short-circuits — no model invocation, empty text,
`retryCount = 0` — and reports `isValid = true` for every configuration
whose output size limit, when set, is non-negative (with the tokenizer
measuring the empty string as zero under token measurement); a negative
configured limit instead yields `isValid = false`, still with empty text,
`retryCount = 0` and no model call. -/
theorem claim_C5_empty_refine_amended (env : Env) (c : Chain) (st : St)
    (hlim : ∀ n, c.outputSize = some n → 0 ≤ n)
    (htok : c.sizeMeasurement = SizeMeasurement.tokens → env.tok "" = 0) :
    (refine env c [] st).1.text = ""
  ∧ (refine env c [] st).1.sizeValidation.isValid = true
  ∧ (refine env c [] st).1.sizeValidation.retryCount = 0
  ∧ (refine env c [] st).1.sizeValidation.warning = none
  ∧ (refine env c [] st).2 = st := by
  obtain ⟨h1, h2⟩ := validate_empty_ok env c hlim htok
  exact ⟨rfl, h1, rfl, h2, rfl⟩

theorem claim_C5_empty_refine_amended_witness :
    (refine wEnv wChainLim [] wSt).1.text = ""
  ∧ (refine wEnv wChainLim [] wSt).1.sizeValidation.isValid = true
  ∧ (refine wEnv wChainLim [] wSt).1.sizeValidation.retryCount = 0
  ∧ (refine wEnv wChainLim [] wSt).1.sizeValidation.warning = none
  ∧ (refine wEnv wChainLim [] wSt).2 = wSt :=
  claim_C5_empty_refine_amended wEnv wChainLim wSt
    (fun n hn => by simp [wChainLim] at hn; omega)
    (fun h => by simp [wChainLim] at h)

/-- Claim C6: for every input and every strategy-type value outside the
three known selectors, `invoke` fails with the configuration error before
any generation occurs: the returned state is the incoming one — no model
call, no agent call, no sleep happened. -/
theorem claim_C6_unknown_type_fails_fast (env : Env) (c : Chain)
    (docs : List Document) (st : St)
    (h1 : c.type ≠ "map_reduce") (h2 : c.type ≠ "stuff") (h3 : c.type ≠ "refine") :
    invoke env c docs st = (Except.error ("Unknown summarization type: " ++ c.type), st)
  ∧ (invoke env c docs st).2.calls = st.calls
  ∧ (invoke env c docs st).2.events = st.events := by
  have hi : invoke env c docs st
      = (Except.error ("Unknown summarization type: " ++ c.type), st) := by
    simp [invoke, h1, h2, h3]
  exact ⟨hi, by rw [hi], by rw [hi]⟩

theorem claim_C6_unknown_type_fails_fast_witness :
    invoke wEnv wChainUnknown wDocs wSt
      = (Except.error ("Unknown summarization type: " ++ wChainUnknown.type), wSt)
  ∧ (invoke wEnv wChainUnknown wDocs wSt).2.calls = wSt.calls
  ∧ (invoke wEnv wChainUnknown wDocs wSt).2.events = wSt.events :=
  claim_C6_unknown_type_fails_fast wEnv wChainUnknown wDocs wSt
    (by decide) (by decide) (by decide)

/-- `withConfig` preserves every field of the strategy except (at most) the
model handle. -/
theorem withConfig_frame (c : Chain) (cfg : Option String) :
    (withConfig c cfg).type = c.type
  ∧ (withConfig c cfg).batchSize = c.batchSize
  ∧ (withConfig c cfg).delayBetweenBatches = c.delayBetweenBatches
  ∧ (withConfig c cfg).outputSize = c.outputSize
  ∧ (withConfig c cfg).sizeMeasurement = c.sizeMeasurement
  ∧ (withConfig c cfg).useAgent = c.useAgent
  ∧ (withConfig c cfg).combineMapPrompt = c.combineMapPrompt
  ∧ (withConfig c cfg).combinePrompt = c.combinePrompt
  ∧ (withConfig c cfg).prompt = c.prompt
  ∧ (withConfig c cfg).refinePrompt = c.refinePrompt
  ∧ (withConfig c cfg).questionPrompt = c.questionPrompt := by
  cases hcfg : cfg with
  | none => simp [withConfig]
  | some a =>
      cases hr : c.model.reconfig with
      | none => simp [withConfig, hr]
      | some f => simp [withConfig, hr]

/-- Claim C7: for every raw configuration (0, negative and out-of-range
values included) the constructed strategy's `batchSize` lies in `[1, 1000]`
and its `delayBetweenBatches` in `[0, 600000]` — clamped once by the
constructor — and the invariant is preserved by the rebinding operation;
hence a nonempty input always yields a nonempty first batch group, and the
batching loop consumes every document (it terminates — the loop functions
are total — and returns one output per input). -/
theorem claim_C7_constructor_clamps (p : ChainParams) (cfg : Option String)
    (docs : List Document) (st : St) (hne : docs ≠ []) :
    1 ≤ (mkChain p).batchSize
  ∧ (mkChain p).batchSize ≤ 1000
  ∧ (mkChain p).delayBetweenBatches ≤ 600000
  ∧ (withConfig (mkChain p) cfg).batchSize = (mkChain p).batchSize
  ∧ (withConfig (mkChain p) cfg).delayBetweenBatches = (mkChain p).delayBetweenBatches
  ∧ docs.take (mkChain p).batchSize ≠ []
  ∧ (processDocumentsInBatches (mkChain p) none docs st).1.length = docs.length := by
  refine ⟨clampBatchSize_pos _, clampBatchSize_le _, clampDelay_le _,
    (withConfig_frame (mkChain p) cfg).2.1, (withConfig_frame (mkChain p) cfg).2.2.1,
    ?_, ?_⟩
  · intro hcon
    rcases List.take_eq_nil_iff.mp hcon with h | h
    · exact absurd h (Nat.pos_iff_ne_zero.mp (clampBatchSize_pos _))
    · exact hne h
  · exact (processBatchesGo_spec (mkChain p).model
      ((none : Option BasePromptTemplate).getD (getDefaultPrompt (mkChain p)))
      (mkChain p).batchSize (mkChain p).delayBetweenBatches (mkChain p).batchSize_pos
      docs.length docs rfl st).1

theorem claim_C7_constructor_clamps_witness :
    1 ≤ (mkChain wParamsOutOfRange).batchSize
  ∧ (mkChain wParamsOutOfRange).batchSize ≤ 1000
  ∧ (mkChain wParamsOutOfRange).delayBetweenBatches ≤ 600000
  ∧ [(⟨"only doc", []⟩ : Document)].take (mkChain wParamsOutOfRange).batchSize ≠ [] :=
  ⟨(claim_C7_constructor_clamps wParamsOutOfRange none [⟨"only doc", []⟩] wSt (by decide)).1,
   (claim_C7_constructor_clamps wParamsOutOfRange none [⟨"only doc", []⟩] wSt (by decide)).2.1,
   (claim_C7_constructor_clamps wParamsOutOfRange none [⟨"only doc", []⟩] wSt
     (by decide)).2.2.1,
   (claim_C7_constructor_clamps wParamsOutOfRange none [⟨"only doc", []⟩] wSt
     (by decide)).2.2.2.2.2.1⟩

/-- Claim C8: `withConfig` returns a strategy in which only the
language-model handle is (possibly) rebound — rebound exactly when the
config is truthy and the model exposes a `withConfig` method, left alone
otherwise — while the strategy type, batch size, delay, output size,
measurement unit, agent flag and all five prompts are preserved unchanged,
so the returned strategy is logically equivalent to the original. -/
theorem claim_C8_withConfig_rebinds_only_model (c : Chain) (cfg : Option String) :
    (withConfig c cfg).type = c.type
  ∧ (withConfig c cfg).batchSize = c.batchSize
  ∧ (withConfig c cfg).delayBetweenBatches = c.delayBetweenBatches
  ∧ (withConfig c cfg).outputSize = c.outputSize
  ∧ (withConfig c cfg).sizeMeasurement = c.sizeMeasurement
  ∧ (withConfig c cfg).useAgent = c.useAgent
  ∧ (withConfig c cfg).combineMapPrompt = c.combineMapPrompt
  ∧ (withConfig c cfg).combinePrompt = c.combinePrompt
  ∧ (withConfig c cfg).prompt = c.prompt
  ∧ (withConfig c cfg).refinePrompt = c.refinePrompt
  ∧ (withConfig c cfg).questionPrompt = c.questionPrompt
  ∧ (cfg = none → withConfig c cfg = c)
  ∧ (c.model.reconfig = none → withConfig c cfg = c)
  ∧ (∀ (a : String) (f : String → LModel), cfg = some a → c.model.reconfig = some f →
      (withConfig c cfg).model = f a) := by
  obtain ⟨f1, f2, f3, f4, f5, f6, f7, f8, f9, f10, f11⟩ := withConfig_frame c cfg
  refine ⟨f1, f2, f3, f4, f5, f6, f7, f8, f9, f10, f11, ?_, ?_, ?_⟩
  · intro h
    subst h
    simp [withConfig]
  · intro h
    cases hcfg : cfg with
    | none => simp [withConfig]
    | some a => simp [withConfig, h]
  · intro a f hcfg hr
    subst hcfg
    simp [withConfig, hr]

/-- The retry loop is insensitive to its `promptTemplate` parameter and to
anything in the chain beyond the model handle, the limit and the
measurement unit: two runs differing only in those ignored inputs coincide
step by step. -/
theorem retry_congr (env : Env) (c1 c2 : Chain) (text : String)
    (pt1 pt2 : BasePromptTemplate)
    (hm : c1.model = c2.model)
    (hs : ∀ (a i : Nat) (t : String),
      strictPromptTemplate c1 a i t = strictPromptTemplate c2 a i t)
    (hv : ∀ t, validateOutputSize env c1 t = validateOutputSize env c2 t) :
    ∀ (attempt : Nat) (st : St),
      retryWithShorterPrompt env c1 text pt1 attempt st
        = retryWithShorterPrompt env c2 text pt2 attempt st := by
  suffices h : ∀ (k attempt : Nat) (st : St), 3 - attempt ≤ k →
      retryWithShorterPrompt env c1 text pt1 attempt st
        = retryWithShorterPrompt env c2 text pt2 attempt st by
    intro attempt st
    exact h 3 attempt st (by omega)
  intro k
  induction k with
  | zero =>
      intro attempt st hk
      have ha : 3 ≤ attempt := by omega
      rw [retry_stop env c1 text pt1 attempt st (Or.inr ha),
        retry_stop env c2 text pt2 attempt st (Or.inr ha), hm, hs]
  | succ k ih =>
      intro attempt st hk
      by_cases hstop : (validateOutputSize env c2 (modelInvoke c2.model st
          (strictPromptTemplate c2 attempt (min (attempt - 1) 2) text)).1).isValid = true
          ∨ 3 ≤ attempt
      · have hstop1 : (validateOutputSize env c1 (modelInvoke c1.model st
            (strictPromptTemplate c1 attempt (min (attempt - 1) 2) text)).1).isValid = true
            ∨ 3 ≤ attempt := by
          rw [hm, hs, hv]
          exact hstop
        rw [retry_stop env c1 text pt1 attempt st hstop1,
          retry_stop env c2 text pt2 attempt st hstop, hm, hs]
      · obtain ⟨hvn, han⟩ := not_or.mp hstop
        have hv2 : (validateOutputSize env c2 (modelInvoke c2.model st
            (strictPromptTemplate c2 attempt (min (attempt - 1) 2) text)).1).isValid
            = false := by
          cases hx : (validateOutputSize env c2 (modelInvoke c2.model st
              (strictPromptTemplate c2 attempt (min (attempt - 1) 2) text)).1).isValid
          · rfl
          · exact absurd hx hvn
        have hv1 : (validateOutputSize env c1 (modelInvoke c1.model st
            (strictPromptTemplate c1 attempt (min (attempt - 1) 2) text)).1).isValid
            = false := by
          rw [hm, hs, hv]
          exact hv2
        rw [retry_continue env c1 text pt1 attempt st hv1 (by omega),
          retry_continue env c2 text pt2 attempt st hv2 (by omega), hm, hs]
        exact ih (attempt + 1) _ (by omega)

/-- Claim C10: the size-governance retry loop ignores its `promptTemplate`
parameter entirely — for any two templates, the same text, chain, attempt
number and model behaviour produce identical results AND identical traces
(hence identical issued prompts) — and the five custom prompt overrides of
the configuration have no influence on retry regeneration either. -/
theorem claim_C10_retry_ignores_promptTemplate (env : Env) (c : Chain) (text : String)
    (pt1 pt2 : BasePromptTemplate) (attempt : Nat) (st : St)
    (po pc pb pr pq : Option BasePromptTemplate) :
    retryWithShorterPrompt env c text pt1 attempt st
      = retryWithShorterPrompt env c text pt2 attempt st
  ∧ retryWithShorterPrompt env
      { c with
        combineMapPrompt := pc
        combinePrompt := pb
        prompt := po
        refinePrompt := pr
        questionPrompt := pq } text pt1 attempt st
      = retryWithShorterPrompt env c text pt1 attempt st := by
  constructor
  · exact retry_congr env c c text pt1 pt2 rfl (fun _ _ _ => rfl) (fun _ => rfl) attempt st
  · exact retry_congr env
      { c with
        combineMapPrompt := pc
        combinePrompt := pb
        prompt := po
        refinePrompt := pr
        questionPrompt := pq } c text pt1 pt1 rfl
      (fun _ _ _ => rfl) (fun _ => rfl) attempt st

theorem csc_falsy (c : Chain) (b : String) (h : truthy c.outputSize = false) :
    createSizeConstrainedPrompt c b = b := by
  simp [createSizeConstrainedPrompt, h]

theorem getDefaultPrompt_falsy_congr (c : Chain) (h1 : truthy c.outputSize = false) :
    getDefaultPrompt (eraseLimit c) = getDefaultPrompt c := by
  funext v
  show createSizeConstrainedPrompt (eraseLimit c) _ = createSizeConstrainedPrompt c _
  rw [csc_falsy (eraseLimit c) _ rfl, csc_falsy c _ h1]

theorem getDefaultCombinePrompt_falsy_congr (c : Chain)
    (h1 : truthy c.outputSize = false) :
    getDefaultCombinePrompt (eraseLimit c) = getDefaultCombinePrompt c := by
  funext v
  show createSizeConstrainedPrompt (eraseLimit c) _ = createSizeConstrainedPrompt c _
  rw [csc_falsy (eraseLimit c) _ rfl, csc_falsy c _ h1]

theorem getDefaultRefinePrompt_falsy_congr (c : Chain)
    (h1 : truthy c.outputSize = false) :
    getDefaultRefinePrompt (eraseLimit c) = getDefaultRefinePrompt c := by
  funext v
  show createSizeConstrainedPrompt (eraseLimit c) _ = createSizeConstrainedPrompt c _
  rw [csc_falsy (eraseLimit c) _ rfl, csc_falsy c _ h1]

theorem validate_erase_congr (env : Env) (c : Chain) (t : String)
    (h1 : truthy c.outputSize = false) :
    validateOutputSize env (eraseLimit c) t = validateOutputSize env c t := by
  rw [validateOutputSize_of_falsy env (eraseLimit c) t rfl,
    validateOutputSize_of_falsy env c t h1]
  rfl

theorem agentExecutor_falsy (env : Env) (c : Chain) (h1 : truthy c.outputSize = false) :
    createSizeConstrainedAgentExecutor env c = none := by
  simp [createSizeConstrainedAgentExecutor, h1]

theorem stuffGenerate_erase_congr (env : Env) (c : Chain) (docs : List Document)
    (st : St) (h1 : truthy c.outputSize = false) :
    stuffGenerate env (eraseLimit c) docs st = stuffGenerate env c docs st := by
  have hcU : ¬(truthy (eraseLimit c).outputSize = true ∧ (eraseLimit c).useAgent = true) := by
    intro hcon
    have hx : truthy (eraseLimit c).outputSize = false := rfl
    rw [hx] at hcon
    exact Bool.false_ne_true hcon.1
  have hcC : ¬(truthy c.outputSize = true ∧ c.useAgent = true) := by
    intro hcon
    rw [h1] at hcon
    exact Bool.false_ne_true hcon.1
  simp only [stuffGenerate]
  rw [if_neg hcU, if_neg hcC, getDefaultPrompt_falsy_congr c h1]
  rfl

theorem stuff_erase_congr (env : Env) (c : Chain) (docs : List Document) (st : St)
    (h1 : truthy c.outputSize = false) :
    stuff env (eraseLimit c) docs st = stuff env c docs st := by
  have hcU : ¬((validateOutputSize env c (stuffGenerate env c docs st).2.1).isValid = false
      ∧ truthy (eraseLimit c).outputSize = true) := by
    intro hcon
    have hx : truthy (eraseLimit c).outputSize = false := rfl
    rw [hx] at hcon
    exact Bool.false_ne_true hcon.2
  have hcC : ¬((validateOutputSize env c (stuffGenerate env c docs st).2.1).isValid = false
      ∧ truthy c.outputSize = true) := by
    intro hcon
    rw [h1] at hcon
    exact Bool.false_ne_true hcon.2
  simp only [stuff]
  rw [stuffGenerate_erase_congr env c docs st h1, validate_erase_congr env c _ h1,
    if_neg hcU, if_neg hcC]

theorem pdib_erase_congr (c : Chain) (pt : Option BasePromptTemplate)
    (docs : List Document) (st : St) (h1 : truthy c.outputSize = false) :
    processDocumentsInBatches (eraseLimit c) pt docs st
      = processDocumentsInBatches c pt docs st := by
  simp only [processDocumentsInBatches]
  rw [getDefaultPrompt_falsy_congr c h1]
  rfl

theorem mapReduceGenerate_erase_congr (env : Env) (c : Chain) (docs : List Document)
    (st : St) (h1 : truthy c.outputSize = false) :
    mapReduceGenerate env (eraseLimit c) docs st = mapReduceGenerate env c docs st := by
  have hcU : ¬(truthy (eraseLimit c).outputSize = true ∧ (eraseLimit c).useAgent = true) := by
    intro hcon
    have hx : truthy (eraseLimit c).outputSize = false := rfl
    rw [hx] at hcon
    exact Bool.false_ne_true hcon.1
  have hcC : ¬(truthy c.outputSize = true ∧ c.useAgent = true) := by
    intro hcon
    rw [h1] at hcon
    exact Bool.false_ne_true hcon.1
  simp only [mapReduceGenerate]
  rw [pdib_erase_congr c _ docs st h1, if_neg hcU, if_neg hcC,
    getDefaultCombinePrompt_falsy_congr c h1]
  rfl

theorem mapReduce_erase_congr (env : Env) (c : Chain) (docs : List Document) (st : St)
    (h1 : truthy c.outputSize = false) :
    mapReduce env (eraseLimit c) docs st = mapReduce env c docs st := by
  have hcU : ¬((validateOutputSize env c (mapReduceGenerate env c docs st).2.1).isValid = false
      ∧ truthy (eraseLimit c).outputSize = true) := by
    intro hcon
    have hx : truthy (eraseLimit c).outputSize = false := rfl
    rw [hx] at hcon
    exact Bool.false_ne_true hcon.2
  have hcC : ¬((validateOutputSize env c (mapReduceGenerate env c docs st).2.1).isValid = false
      ∧ truthy c.outputSize = true) := by
    intro hcon
    rw [h1] at hcon
    exact Bool.false_ne_true hcon.2
  simp only [mapReduce]
  rw [mapReduceGenerate_erase_congr env c docs st h1, validate_erase_congr env c _ h1,
    if_neg hcU, if_neg hcC]

theorem refineGenerate_erase_congr (c : Chain) (d : Document) (ds : List Document)
    (st : St) (h1 : truthy c.outputSize = false) :
    refineGenerate (eraseLimit c) d ds st = refineGenerate c d ds st := by
  simp only [refineGenerate]
  rw [getDefaultPrompt_falsy_congr c h1, getDefaultRefinePrompt_falsy_congr c h1]
  rfl

theorem refine_erase_congr (env : Env) (c : Chain) (docs : List Document) (st : St)
    (h1 : truthy c.outputSize = false) :
    refine env (eraseLimit c) docs st = refine env c docs st := by
  match docs with
  | [] =>
      simp only [refine]
      rw [validate_erase_congr env c "" h1]
  | d :: ds =>
      have hcU : ¬((validateOutputSize env c (refineGenerate c d ds st).1).isValid = false
          ∧ truthy (eraseLimit c).outputSize = true) := by
        intro hcon
        have hx : truthy (eraseLimit c).outputSize = false := rfl
        rw [hx] at hcon
        exact Bool.false_ne_true hcon.2
      have hcC : ¬((validateOutputSize env c (refineGenerate c d ds st).1).isValid = false
          ∧ truthy c.outputSize = true) := by
        intro hcon
        rw [h1] at hcon
        exact Bool.false_ne_true hcon.2
      simp only [refine]
      rw [refineGenerate_erase_congr c d ds st h1, validate_erase_congr env c _ h1,
        if_neg hcU, if_neg hcC]

theorem invoke_erase_congr (env : Env) (c : Chain) (docs : List Document) (st : St)
    (h1 : truthy c.outputSize = false) :
    invoke env (eraseLimit c) docs st = invoke env c docs st := by
  by_cases t1 : c.type = "map_reduce"
  · have hl : invoke env (eraseLimit c) docs st
        = (Except.ok (mapReduce env (eraseLimit c) docs st).1,
           (mapReduce env (eraseLimit c) docs st).2) := by
      simp [invoke, eraseLimit, t1]
    have hr : invoke env c docs st
        = (Except.ok (mapReduce env c docs st).1, (mapReduce env c docs st).2) := by
      simp [invoke, t1]
    rw [hl, hr, mapReduce_erase_congr env c docs st h1]
  · by_cases t2 : c.type = "stuff"
    · have hl : invoke env (eraseLimit c) docs st
          = (Except.ok (stuff env (eraseLimit c) docs st).1,
             (stuff env (eraseLimit c) docs st).2) := by
        simp [invoke, eraseLimit, t1, t2]
      have hr : invoke env c docs st
          = (Except.ok (stuff env c docs st).1, (stuff env c docs st).2) := by
        simp [invoke, t1, t2]
      rw [hl, hr, stuff_erase_congr env c docs st h1]
    · by_cases t3 : c.type = "refine"
      · have hl : invoke env (eraseLimit c) docs st
            = (Except.ok (refine env (eraseLimit c) docs st).1,
               (refine env (eraseLimit c) docs st).2) := by
          simp [invoke, eraseLimit, t1, t2, t3]
        have hr : invoke env c docs st
            = (Except.ok (refine env c docs st).1, (refine env c docs st).2) := by
          simp [invoke, t1, t2, t3]
        rw [hl, hr, refine_erase_congr env c docs st h1]
      · have hl : invoke env (eraseLimit c) docs st
            = (Except.error ("Unknown summarization type: " ++ c.type), st) := by
          simp [invoke, eraseLimit, t1, t2, t3]
        have hr : invoke env c docs st
            = (Except.error ("Unknown summarization type: " ++ c.type), st) := by
          simp [invoke, t1, t2, t3]
        rw [hl, hr]

/-- Claim C9: configuring the output size limit as `0` behaves exactly like
an absent limit, because the implementation tests the limit's truthiness:
every validation passes with no `maxSize` and no `warning`, the agent
executor is never constructed, the size-retry path is never taken
(`retryCount` stays `0` for all three strategies), and the whole `invoke`
behaviour — results and effect trace — coincides with the limit-erased
configuration. -/
theorem claim_C9_zero_limit_like_absent (env : Env) (c : Chain) (text : String)
    (docs : List Document) (st : St) (hz : c.outputSize = some 0) :
    validateOutputSize env c text
      = { isValid := true, actualSize := measureTextSize env c text
          maxSize := none, unit := measurementStr c.sizeMeasurement, warning := none }
  ∧ validateOutputSize env c text = validateOutputSize env (eraseLimit c) text
  ∧ createSizeConstrainedAgentExecutor env c = none
  ∧ (stuff env c docs st).1.sizeValidation.retryCount = 0
  ∧ (mapReduce env c docs st).1.sizeValidation.retryCount = 0
  ∧ (refine env c docs st).1.sizeValidation.retryCount = 0
  ∧ invoke env c docs st = invoke env (eraseLimit c) docs st := by
  have h1 : truthy c.outputSize = false := by rw [hz]; rfl
  refine ⟨validateOutputSize_of_falsy env c text h1,
    (validate_erase_congr env c text h1).symm,
    agentExecutor_falsy env c h1, ?_, ?_, ?_,
    (invoke_erase_congr env c docs st h1).symm⟩
  · rw [stuff_retryCount env c docs st,
      validateOutputSize_of_falsy env c _ h1]
    rfl
  · rw [mapReduce_retryCount env c docs st,
      validateOutputSize_of_falsy env c _ h1]
    rfl
  · match docs with
    | [] => exact refine_retryCount_nil env c st
    | d :: ds =>
        rw [refine_retryCount_cons env c d ds st,
          validateOutputSize_of_falsy env c _ h1]
        rfl

theorem claim_C9_zero_limit_like_absent_witness :
    validateOutputSize wEnv { wChain with outputSize := some 0 } "any output"
      = { isValid := true
          actualSize := measureTextSize wEnv { wChain with outputSize := some 0 } "any output"
          maxSize := none
          unit := measurementStr ({ wChain with outputSize := some 0 } : Chain).sizeMeasurement
          warning := none }
  ∧ createSizeConstrainedAgentExecutor wEnv { wChain with outputSize := some 0 } = none
  ∧ (stuff wEnv { wChain with outputSize := some 0 } wDocs wSt).1.sizeValidation.retryCount = 0
  ∧ invoke wEnv { wChain with outputSize := some 0 } wDocs wSt
      = invoke wEnv (eraseLimit { wChain with outputSize := some 0 }) wDocs wSt :=
  ⟨(claim_C9_zero_limit_like_absent wEnv { wChain with outputSize := some 0 } "any output"
      wDocs wSt rfl).1,
   (claim_C9_zero_limit_like_absent wEnv { wChain with outputSize := some 0 } "any output"
      wDocs wSt rfl).2.2.1,
   (claim_C9_zero_limit_like_absent wEnv { wChain with outputSize := some 0 } "any output"
      wDocs wSt rfl).2.2.2.1,
   (claim_C9_zero_limit_like_absent wEnv { wChain with outputSize := some 0 } "any output"
      wDocs wSt rfl).2.2.2.2.2.2⟩

theorem claim_C1_batch_counts_witness :
    (processDocumentsInBatches wChain none wDocs wSt).1.length = wDocs.length
  ∧ (processDocumentsInBatches wChain none wDocs wSt).2.calls = wSt.calls + wDocs.length
  ∧ sleepCount (processDocumentsInBatches wChain none wDocs wSt).2.events
      = sleepCount wSt.events
        + ((wDocs.length + wChain.batchSize - 1) / wChain.batchSize - 1) :=
  ⟨(claim_C1_batch_counts wChain none wDocs wSt).1,
   (claim_C1_batch_counts wChain none wDocs wSt).2.1,
   (claim_C1_batch_counts wChain none wDocs wSt).2.2.1 (by decide)⟩

end BatchedSummarization

